import Mathlib

/-
  Verification of the `rust-slothgl` terminal mesh viewer (`src/main.rs`)
  against its natural-language specification.

  The whole program is the single function `main`.  We embed it shallowly:

  * the mesh-loading phase (extension dispatch and per-item error recovery,
    `main.rs` lines 28-56) becomes `loadItem` / `buildQueue`, with the
    external mesh loaders (the `tobj` and `stl_io` crates, plus the
    repository's `to_simple_mesh*` converters that live in the absent
    `base` module) supplied as an abstract environment `LoadEnv`;
  * the configuration phase (lines 57-75) becomes `computeSpeed` /
    `computeTurntable` / `mainConfig`, with `str::parse::<f32>` supplied as
    an abstract `parse : String → Option ℚ` (scalars are modelled as ℚ);
    `Option.none` models a panic, i.e. an abort before the render loop;
  * the render loop (lines 86-115) becomes `iter` / `runLoop` / `runMain`,
    functions that produce a trace of the externally visible operations
    (`Ev`): cursor hide/show, input poll, transform computation, context
    update / clear / draw / flush.  Keyboard events, the success of
    `Context::update` and `Context::flush`, and the measured frame times
    `dt` are inputs of the model (`LoopEnv`); fuel bounds the number of
    iterations we observe.

  The call `Rotation3::from_euler_angles(a, b, c).to_homogeneous()` of the
  external `nalgebra` crate is modelled symbolically by the constructor
  `Homog.mk a b c`, which records exactly the three angle values the
  program hands to `from_euler_angles`.
-/

namespace Slothgl

/-! ## Character and string helpers -/

/-- Rust `str::split(c)`: splits at every occurrence of `c`, keeping empty
pieces; the result always has (number of occurrences of `c`) + 1 parts. -/
def splitOnChar (c : Char) : List Char → List (List Char)
  | [] => [[]]
  | x :: xs =>
    if x = c then [] :: splitOnChar c xs
    else
      match splitOnChar c xs with
      | [] => [[x]]
      | y :: ys => (x :: y) :: ys

/-- Rust `value.matches(' ').count()` (`main.rs` line 65): the number of
space characters in the string. -/
def countSpaces (s : String) : Nat := s.toList.count ' '

/-- The space-separated components of a string, as produced by Rust
`value.split(' ')` (`main.rs` lines 28 and 69). -/
def componentsOf (value : String) : List String :=
  (splitOnChar ' ' value.toList).map (fun l => String.mk l)

/-- ASCII lowercasing of one character.  Rust `str::to_lowercase`
(`main.rs` line 39) performs Unicode lowercasing, which agrees with this on
ASCII input; only the ASCII words "obj"/"stl" are ever compared against. -/
def lowerChar (c : Char) : Char :=
  if 'A' ≤ c ∧ c ≤ 'Z' then Char.ofNat (c.toNat + 32) else c

/-- ASCII lowercasing of a string (`extstr.to_lowercase()`). -/
def lowerStr (s : String) : String := String.mk (s.toList.map lowerChar)

/-- Rust `Path::extension` (`main.rs` line 35): the final path component's
suffix after its last `.`, provided that `.` is not the component's first
character; `none` when there is no such suffix. -/
def extension (s : String) : Option String :=
  let name := (splitOnChar '/' s.toList).getLastD []
  if name = ['.'] ∨ name = ['.', '.'] then none
  else
    let extRev := name.reverse.takeWhile (fun c => c != '.')
    if extRev.length = name.length then none
    else if name.length = extRev.length + 1 then none
    else some (String.mk extRev.reverse)

/-! ## A model of `str::parse::<f32>` at the interface boundary

`str::parse::<f32>` belongs to the Rust standard library (an external
collaborator).  Theorems quantify over an arbitrary
`parse : String → Option ℚ`; the concrete `parseNum` below is used only in
witnesses and counterexamples, and agrees with `f32::from_str` on the
simple decimal numerals (and non-numeric strings) used there. -/

def isDigitCh (c : Char) : Bool := decide ('0' ≤ c) && decide (c ≤ '9')

def digitsToNat (l : List Char) : Nat :=
  l.foldl (fun a c => a * 10 + (c.toNat - 48)) 0

/-- Parse an unsigned decimal numeral (digits, optional point, digits). -/
def parseDec (l : List Char) : Option ℚ :=
  let ip := l.takeWhile isDigitCh
  let rest := l.dropWhile isDigitCh
  match rest with
  | [] => if ip.isEmpty then none else some ((digitsToNat ip : ℕ) : ℚ)
  | '.' :: fp =>
    if fp.all isDigitCh && !(ip.isEmpty && fp.isEmpty) then
      some ((digitsToNat ip : ℕ) + ((digitsToNat fp : ℕ) : ℚ) / ((10 : ℚ) ^ fp.length))
    else none
  | _ => none

/-- Signed decimal parsing, modelling `str::parse::<f32>` on plain
numerals (scalars are modelled as ℚ). -/
def parseNum (s : String) : Option ℚ :=
  match s.toList with
  | '-' :: rest => (parseDec rest).map (fun q => -q)
  | '+' :: rest => parseDec rest
  | l => parseDec l

/-! ## Mesh loading (`main.rs` lines 17-23 and 28-56) -/

/-- The external collaborators of the loading phase, at their interface
boundary: `tobj::load_obj`, the repository's
`Mesh::to_simple_mesh_with_materials` (in the absent `base` module),
`OpenOptions::open`, and `stl_io::read_stl` composed with
`to_simple_mesh`.  `Except.error` carries the message text the program
appends to its own description. -/
structure LoadEnv (Model Material File Mesh : Type) where
  loadObj : String → Except String (List Model × List Material)
  toSimpleMeshWithMaterials : Model → List Material → Mesh
  openStl : String → Except String File
  readStl : File → Except String Mesh

variable {Model Material File Mesh : Type}

/-- `to_meshes` (`main.rs` lines 17-23): converts every loaded model with
the shared material list, in order. -/
def to_meshes (toSimple : Model → List Material → Mesh)
    (models : List Model) (materials : List Material) : List Mesh :=
  match models with
  | [] => []
  | m :: rest => toSimple m materials :: to_meshes toSimple rest materials

/-- The message printed by the `error` closure (`main.rs` lines 29-32).
The Rust format string is `filename: [{}] couldn't load, {}. {}`. -/
def errMsg (slice s e : String) : String :=
  "filename: [" ++ slice ++ "] could not load, " ++ s ++ ". " ++ e

/-- The `"obj"` arm of the dispatch (`main.rs` lines 40-43): result meshes
and the error messages printed. -/
def objBranch (env : LoadEnv Model Material File Mesh) (slice : String) :
    List Mesh × List String :=
  match env.loadObj slice with
  | Except.error e => ([], [errMsg slice "tobj couldnt load/parse OBJ" e])
  | Except.ok present =>
    (to_meshes env.toSimpleMeshWithMaterials present.1 present.2, [])

/-- The `"stl"` arm of the dispatch (`main.rs` lines 44-50). -/
def stlBranch (env : LoadEnv Model Material File Mesh) (slice : String) :
    List Mesh × List String :=
  match env.openStl slice with
  | Except.error e => ([], [errMsg slice "STL load failed" e])
  | Except.ok file =>
    match env.readStl file with
    | Except.error e => ([], [errMsg slice "stl_io couldnt parse STL" e])
    | Except.ok mesh => ([mesh], [])

/-- Dispatch on the lowercased extension string (`main.rs` lines 39-52). -/
def dispatchExt (env : LoadEnv Model Material File Mesh)
    (slice extstr : String) : List Mesh × List String :=
  let le := lowerStr extstr
  if le = "obj" then objBranch env slice
  else if le = "stl" then stlBranch env slice
  else ([], [errMsg slice "unknown filename extension" ""])

/-- Loading of one input item (`main.rs` lines 34-54): meshes contributed
to the queue and messages printed.  (The `OsStr::to_str` failure arm of
line 38 has no counterpart: a Lean `String` is always valid Unicode.) -/
def loadItem (env : LoadEnv Model Material File Mesh) (slice : String) :
    List Mesh × List String :=
  match extension slice with
  | none => ([], [errMsg slice "couldnt determine filename extension" ""])
  | some ext => dispatchExt env slice ext

/-- Whether the item reaches a success arm of the dispatch (translated
from the same match tree as `loadItem`). -/
def loadOk (env : LoadEnv Model Material File Mesh) (slice : String) : Bool :=
  match extension slice with
  | none => false
  | some ext =>
    let le := lowerStr ext
    if le = "obj" then
      match env.loadObj slice with
      | Except.ok _ => true
      | Except.error _ => false
    else if le = "stl" then
      match env.openStl slice with
      | Except.error _ => false
      | Except.ok f =>
        match env.readStl f with
        | Except.ok _ => true
        | Except.error _ => false
    else false

/-- The loading loop (`main.rs` lines 28-56): `mesh_queue.append` for each
slice in order, accumulating printed messages alongside. -/
def buildQueue (env : LoadEnv Model Material File Mesh) :
    List String → List Mesh × List String
  | [] => ([], [])
  | s :: rest =>
    let r := loadItem env s
    let r' := buildQueue env rest
    (r.1 ++ r'.1, r.2 ++ r'.2)

/-! ## Configuration (`main.rs` lines 57-75) -/

/-- Turntable speed (`main.rs` lines 57-62): defaults to `1.0`; when the
argument is present, `parse().unwrap()` panics (`none`) on a parse
failure. -/
def computeSpeed (parse : String → Option ℚ) (arg : Option String) :
    Option ℚ :=
  match arg with
  | none => some 1
  | some v =>
    match parse v with
    | none => none
    | some s => some s

/-- Initial rotation (`main.rs` lines 63-75): when absent, `(0,0,0)`; when
present, panic (`none`) unless the argument holds exactly two spaces, then
parse the three `split(' ')` components, panicking (`none`) when any
`parse().unwrap()` fails. -/
def computeTurntable (parse : String → Option ℚ) (arg : Option String) :
    Option (ℚ × ℚ × ℚ) :=
  match arg with
  | none => some (0, 0, 0)
  | some value =>
    if countSpaces value = 2 then
      match componentsOf value with
      | a :: b :: c :: _ =>
        match parse a, parse b, parse c with
        | some x, some y, some z => some (x, y, z)
        | _, _, _ => none
      | _ => none
    else none

/-- The whole configuration phase in program order: speed first (lines
57-62), then rotation (lines 63-75); `none` is a panic before the render
loop. -/
def mainConfig (parse : String → Option ℚ) (tArg rArg : Option String) :
    Option (ℚ × (ℚ × ℚ × ℚ)) :=
  match computeSpeed parse tArg with
  | none => none
  | some sp =>
    match computeTurntable parse rArg with
    | none => none
    | some t => some (sp, t)

/-! ## The render loop (`main.rs` lines 76-115) -/

/-- Crossterm key events, at the interface boundary. -/
inductive KeyEvent where
  | char (c : Char)
  | otherKey
deriving DecidableEq

/-- Crossterm input events, at the interface boundary. -/
inductive InputEvent where
  | keyboard (e : KeyEvent)
  | otherEvent
deriving DecidableEq

/-- The match at `main.rs` lines 91-99: does this poll result break the
loop?  Only `InputEvent::Keyboard(KeyEvent::Char('q'))` does. -/
def quitEvent : Option InputEvent → Bool
  | some (InputEvent.keyboard (KeyEvent.char c)) => c = 'q'
  | _ => false

/-- Symbolic model of
`Rotation3::from_euler_angles(r, p, y).to_homogeneous()` (external
`nalgebra`): records the three Euler angle values passed in. -/
structure Homog where
  roll : ℚ
  pitch : ℚ
  yaw : ℚ
deriving DecidableEq

/-- The transform built at `main.rs` lines 100-101 from the current
turntable triple. -/
def rotationTransform (t : ℚ × ℚ × ℚ) : Homog :=
  Homog.mk t.1 t.2.1 t.2.2

/-- Inputs of the render loop from the outside world, per iteration index:
the mesh queue and speed fixed before the loop, and for iteration `n`
whether `Context::update` and `Context::flush` succeed, the polled input
event, and the measured frame time `dt`. -/
structure LoopEnv (M : Type) where
  meshQueue : List M
  speed : ℚ
  updateOk : Nat → Bool
  flushOk : Nat → Bool
  input : Nat → Option InputEvent
  dt : Nat → ℚ

/-- The externally visible operations of `main`, in trace order. -/
inductive Ev (M : Type) where
  | pollInput (e : Option InputEvent)
  | computeRot (r : Homog)
  | updateCtx
  | clearCtx
  | drawMeshEv (m : M) (r : Homog)
  | flushCtx
  | flushStdout
  | hideCursor
  | showCursor
deriving DecidableEq

def isComputeRot {M : Type} : Ev M → Bool
  | Ev.computeRot _ => true
  | _ => false

def isDrawEv {M : Type} : Ev M → Bool
  | Ev.drawMeshEv _ _ => true
  | _ => false

/-- How one iteration ends: `break` on the quit key, an error return from
`context.update(..)?` or `context.flush()?`, or continuation with the
advanced turntable state. -/
inductive IterResult where
  | broke
  | updateErr
  | flushErr
  | continued (t : ℚ × ℚ × ℚ)
deriving DecidableEq

/-- How the whole loop ended (when it did within the observed fuel). -/
inductive ExitKind where
  | quit
  | updateErr
  | flushErr
deriving DecidableEq

/-- `turntable.1 += speed * dt` (`main.rs` lines 110-111): only the second
Euler angle advances. -/
def advance {M : Type} (env : LoopEnv M) (n : Nat) (t : ℚ × ℚ × ℚ) :
    ℚ × ℚ × ℚ :=
  (t.1, t.2.1 + env.speed * env.dt n, t.2.2)

/-- One iteration of the render loop (`main.rs` lines 89-112), as the
trace of operations it performs and its outcome.  Program order: poll
input and possibly break (91-99); build the rotation transform from the
current turntable (100-101); `context.update(..)?` (102); `clear` (103);
one `draw_mesh` per queued mesh with the same transform (104-107);
`context.flush()?` (108); `stdout().flush()` (109); measure `dt` and
advance the turntable (110-111). -/
def iter {M : Type} (env : LoopEnv M) (n : Nat) (t : ℚ × ℚ × ℚ) :
    List (Ev M) × IterResult :=
  let e := env.input n
  if quitEvent e then ([Ev.pollInput e], IterResult.broke)
  else
    let rot := rotationTransform t
    if env.updateOk n then
      let draws := env.meshQueue.map (fun m => Ev.drawMeshEv m rot)
      if env.flushOk n then
        ([Ev.pollInput e, Ev.computeRot rot, Ev.updateCtx, Ev.clearCtx]
            ++ draws ++ [Ev.flushCtx, Ev.flushStdout],
         IterResult.continued (advance env n t))
      else
        ([Ev.pollInput e, Ev.computeRot rot, Ev.updateCtx, Ev.clearCtx]
            ++ draws ++ [Ev.flushCtx],
         IterResult.flushErr)
    else
      ([Ev.pollInput e, Ev.computeRot rot, Ev.updateCtx],
       IterResult.updateErr)

/-- The render loop, observed for `fuel` iterations starting at iteration
index `n` with turntable state `t`; `none` means the loop was still
running when the fuel ran out. -/
def runLoop {M : Type} (env : LoopEnv M) :
    Nat → Nat → (ℚ × ℚ × ℚ) → List (Ev M) × Option ExitKind
  | 0, _, _ => ([], none)
  | fuel + 1, n, t =>
    match iter env n t with
    | (evs, IterResult.broke) => (evs, some ExitKind.quit)
    | (evs, IterResult.updateErr) => (evs, some ExitKind.updateErr)
    | (evs, IterResult.flushErr) => (evs, some ExitKind.flushErr)
    | (evs, IterResult.continued t') =>
      let r := runLoop env fuel (n + 1) t'
      (evs ++ r.1, r.2)

/-- `main` from `cursor.hide()?` onward (`main.rs` lines 86-115):
`cursor.show()` (line 114) runs only after a `break` out of the loop; the
`?` returns at lines 102 and 108 leave the function without reaching it. -/
def runMain {M : Type} (env : LoopEnv M) (fuel : Nat) (t0 : ℚ × ℚ × ℚ) :
    List (Ev M) × Option ExitKind :=
  let r := runLoop env fuel 0 t0
  (Ev.hideCursor ::
     (r.1 ++ (if r.2 = some ExitKind.quit then [Ev.showCursor] else [])),
   r.2)

/-- The whole program in phase order (`main.rs` lines 25-115): split the
input argument on spaces and build the mesh queue; parse speed and
rotation (`none`: a panic before the render loop, so no render trace
exists); otherwise run the loop.  The first component is the list of
load-error messages printed. -/
def programRun (env : LoadEnv Model Material File Mesh)
    (inputArg : String) (parse : String → Option ℚ)
    (tArg rArg : Option String) (updateOk flushOk : Nat → Bool)
    (input : Nat → Option InputEvent) (dt : Nat → ℚ) (fuel : Nat) :
    List String × Option (List (Ev Mesh) × Option ExitKind) :=
  let q := buildQueue env (componentsOf inputArg)
  match mainConfig parse tArg rArg with
  | none => (q.2, none)
  | some cfg =>
    (q.2,
     some (runMain (LoopEnv.mk q.1 cfg.1 updateOk flushOk input dt)
       fuel cfg.2))

/-! ## Concrete sample environments (used by witnesses and
counterexamples) -/

/-- A concrete loading environment over ℕ-coded models, materials, files
and meshes: `good.obj` loads one model that converts to mesh `1`;
`missing.stl` fails to open; everything else errors. -/
def sampleLoadEnv : LoadEnv Nat Nat Nat Nat :=
  LoadEnv.mk
    (fun s => if s = "good.obj" ∨ s = "model.OBJ" then Except.ok ([10], [])
              else Except.error "no such file")
    (fun m _ => m - 9)
    (fun s => if s = "cube.stl" then Except.ok 0
              else Except.error "No such file or directory")
    (fun _ => Except.ok 2)

/-- A concrete loop environment: two meshes, unit speed, update and flush
always succeed, no input ever arrives, every frame takes one time unit. -/
def sampleLoopEnv : LoopEnv Nat :=
  LoopEnv.mk [7, 8] 1 (fun _ => true) (fun _ => true) (fun _ => none)
    (fun _ => 1)

/-- Like `sampleLoopEnv` but the quit key arrives at iteration 1. -/
def quitAt1Env : LoopEnv Nat :=
  LoopEnv.mk [7, 8] 1 (fun _ => true) (fun _ => true)
    (fun n => if n = 1 then some (InputEvent.keyboard (KeyEvent.char 'q'))
              else none)
    (fun _ => 1)

/-- Like `sampleLoopEnv` but `Context::update` fails immediately. -/
def updateFailEnv : LoopEnv Nat :=
  LoopEnv.mk [7] 1 (fun _ => false) (fun _ => true) (fun _ => none)
    (fun _ => 1)

/-! ## Helper lemmas -/

theorem splitOnChar_ne_nil (c : Char) (l : List Char) :
    splitOnChar c l ≠ [] := by
  cases l with
  | nil => simp [splitOnChar]
  | cons x xs =>
    simp only [splitOnChar]
    split
    · simp
    · split <;> simp

theorem splitOnChar_length (c : Char) (l : List Char) :
    (splitOnChar c l).length = l.count c + 1 := by
  induction l with
  | nil => simp [splitOnChar]
  | cons x xs ih =>
    by_cases h : x = c
    · simp only [splitOnChar, if_pos h, List.length_cons, ih,
        List.count_cons]
      simp [h]
    · obtain ⟨y, ys, heq⟩ :=
        List.exists_cons_of_ne_nil (splitOnChar_ne_nil c xs)
      have hlen : ys.length + 1 = xs.count c + 1 := by
        have := ih
        rw [heq] at this
        simpa using this
      simp only [splitOnChar, if_neg h, heq, List.length_cons,
        List.count_cons]
      simp [h, hlen]

theorem componentsOf_length (value : String) :
    (componentsOf value).length = countSpaces value + 1 := by
  simp [componentsOf, countSpaces, splitOnChar_length]

theorem buildQueue_fst (env : LoadEnv Model Material File Mesh)
    (slices : List String) :
    (buildQueue env slices).1
      = (slices.map (fun s => (loadItem env s).1)).flatten := by
  induction slices with
  | nil => simp [buildQueue]
  | cons s rest ih => simp [buildQueue, ih]

theorem buildQueue_snd (env : LoadEnv Model Material File Mesh)
    (slices : List String) :
    (buildQueue env slices).2
      = (slices.map (fun s => (loadItem env s).2)).flatten := by
  induction slices with
  | nil => simp [buildQueue]
  | cons s rest ih => simp [buildQueue, ih]

theorem loadItem_outcome (env : LoadEnv Model Material File Mesh)
    (s : String) :
    (loadOk env s = false →
       (loadItem env s).1 = [] ∧ (loadItem env s).2.length = 1)
    ∧ (loadOk env s = true → (loadItem env s).2 = []) := by
  cases hx : extension s with
  | none => simp [loadItem, loadOk, hx]
  | some ext =>
    by_cases ho : lowerStr ext = "obj"
    · cases hl : env.loadObj s with
      | error e =>
        simp [loadItem, loadOk, hx, dispatchExt, ho, objBranch, hl]
      | ok p =>
        simp [loadItem, loadOk, hx, dispatchExt, ho, objBranch, hl]
    · by_cases hs : lowerStr ext = "stl"
      · cases hl : env.openStl s with
        | error e =>
          simp [loadItem, loadOk, hx, dispatchExt, ho, hs, stlBranch, hl]
        | ok f =>
          cases hr : env.readStl f with
          | error e =>
            simp [loadItem, loadOk, hx, dispatchExt, ho, hs, stlBranch,
              hl, hr]
          | ok m =>
            simp [loadItem, loadOk, hx, dispatchExt, ho, hs, stlBranch,
              hl, hr]
      · simp [loadItem, loadOk, hx, dispatchExt, ho, hs]

/-! ## Claims about loading and configuration -/

/-- C2: every input item that fails to load contributes zero meshes and
exactly one printed message, processing continues with the remaining
items, and the render queue is exactly the concatenation, in input order,
of the meshes of the successfully loaded items; loading never aborts
(`buildQueue` is total and the tail is processed regardless of the head's
failure). -/
theorem C2_bad_inputs_isolated (env : LoadEnv Model Material File Mesh)
    (slices : List String) (s : String) :
    (buildQueue env slices).1
      = (slices.map (fun x => (loadItem env x).1)).flatten
    ∧ (buildQueue env slices).2
      = (slices.map (fun x => (loadItem env x).2)).flatten
    ∧ (buildQueue env (s :: slices)).1
      = (loadItem env s).1 ++ (buildQueue env slices).1
    ∧ (loadOk env s = false →
        (loadItem env s).1 = [] ∧ (loadItem env s).2.length = 1)
    ∧ (loadOk env s = true → (loadItem env s).2 = []) :=
  ⟨buildQueue_fst env slices, buildQueue_snd env slices, rfl,
   (loadItem_outcome env s).1, (loadItem_outcome env s).2⟩

theorem C2_witness :
    loadOk sampleLoadEnv "missing.stl" = false
    ∧ ((loadItem sampleLoadEnv "missing.stl").1 = []
       ∧ (loadItem sampleLoadEnv "missing.stl").2.length = 1) :=
  ⟨by decide,
   (C2_bad_inputs_isolated sampleLoadEnv ["good.obj", "missing.stl"]
     "missing.stl").2.2.2.1 (by decide)⟩

/-- C9: extension dispatch is case-insensitive: whenever the filename's
extension lowercases (ASCII) to "obj" or "stl", the corresponding loader
branch runs, exactly as it would for the all-lowercase extension. -/
theorem C9_case_insensitive_dispatch
    (env : LoadEnv Model Material File Mesh) (s ext : String)
    (hx : extension s = some ext) :
    (lowerStr ext = "obj" →
       loadItem env s = objBranch env s
       ∧ dispatchExt env s ext = dispatchExt env s "obj")
    ∧ (lowerStr ext = "stl" →
       loadItem env s = stlBranch env s
       ∧ dispatchExt env s ext = dispatchExt env s "stl") := by
  have hobj : lowerStr "obj" = "obj" := by decide
  have hstl : lowerStr "stl" = "stl" := by decide
  constructor
  · intro h
    constructor
    · simp [loadItem, hx, dispatchExt, h]
    · simp [dispatchExt, h, hobj]
  · intro h
    have hne : ("stl" : String) ≠ "obj" := by decide
    constructor
    · simp [loadItem, hx, dispatchExt, h, hne]
    · simp [dispatchExt, h, hstl, hne]

theorem C9_witness :
    extension "model.OBJ" = some "OBJ"
    ∧ lowerStr "OBJ" = "obj"
    ∧ (loadItem sampleLoadEnv "model.OBJ" = objBranch sampleLoadEnv "model.OBJ"
       ∧ dispatchExt sampleLoadEnv "model.OBJ" "OBJ"
           = dispatchExt sampleLoadEnv "model.OBJ" "obj") :=
  ⟨by decide, by decide,
   (C9_case_insensitive_dispatch sampleLoadEnv "model.OBJ" "OBJ"
     (by decide)).1 (by decide)⟩

/-- C10: a present but unparseable turntable-speed argument panics before
the render loop (the program's trace never exists), and an absent argument
yields the default speed 1.0. -/
theorem C10_speed_parse_abort (parse : String → Option ℚ) (v : String)
    (env : LoadEnv Model Material File Mesh) (inputArg : String)
    (rArg : Option String) (u f : Nat → Bool)
    (i : Nat → Option InputEvent) (d : Nat → ℚ) (fuel : Nat) :
    computeSpeed parse none = some 1
    ∧ (parse v = none →
        computeSpeed parse (some v) = none
        ∧ (programRun env inputArg parse (some v) rArg u f i d fuel).2
            = none) := by
  refine ⟨rfl, fun h => ⟨?_, ?_⟩⟩
  · simp [computeSpeed, h]
  · simp [programRun, mainConfig, computeSpeed, h]

theorem C10_witness :
    parseNum "abc" = none
    ∧ (computeSpeed parseNum (some "abc") = none
       ∧ (programRun sampleLoadEnv "good.obj" parseNum (some "abc") none
           (fun _ => true) (fun _ => true) (fun _ => none) (fun _ => 1)
           2).2 = none) :=
  ⟨by decide,
   (C10_speed_parse_abort parseNum "abc" sampleLoadEnv "good.obj" none
     (fun _ => true) (fun _ => true) (fun _ => none) (fun _ => 1) 2).2
     (by decide)⟩

/-- C3, counterexample to the claim as stated: the rotation argument
"a b c" consists of exactly three space-separated components, yet the
program does not proceed — each `parse().unwrap()` (`main.rs` lines 71-73)
panics on a non-numeric component, so the render loop is never entered. -/
theorem C3_counterexample_three_components_abort :
    componentsOf "a b c" = ["a", "b", "c"]
    ∧ computeTurntable parseNum (some "a b c") = none
    ∧ (programRun sampleLoadEnv "good.obj" parseNum none (some "a b c")
        (fun _ => true) (fun _ => true) (fun _ => none) (fun _ => 1)
        2).2 = none := by
  decide

/-- C3, amended: a rotation argument without exactly three
space-separated components aborts the program before the render loop (no
render trace exists); an argument with exactly three components, each of
which parses as a number, proceeds into the render loop (provided the
speed argument itself was well formed). -/
theorem C3_rotation_arg_amended (parse : String → Option ℚ)
    (value : String) (env : LoadEnv Model Material File Mesh)
    (inputArg : String) (tArg : Option String) (u f : Nat → Bool)
    (i : Nat → Option InputEvent) (d : Nat → ℚ) (fuel : Nat)
    (a b c : String) (x y z sp : ℚ) :
    ((componentsOf value).length ≠ 3 →
       computeTurntable parse (some value) = none
       ∧ (programRun env inputArg parse tArg (some value) u f i d
           fuel).2 = none)
    ∧ (componentsOf value = [a, b, c] → parse a = some x →
       parse b = some y → parse c = some z →
       computeSpeed parse tArg = some sp →
       computeTurntable parse (some value) = some (x, y, z)
       ∧ (programRun env inputArg parse tArg (some value) u f i d
           fuel).2 ≠ none) := by
  constructor
  · intro hlen
    have hc : countSpaces value ≠ 2 := by
      have := componentsOf_length value
      omega
    have ht : computeTurntable parse (some value) = none := by
      simp [computeTurntable, hc]
    refine ⟨ht, ?_⟩
    cases hsp : computeSpeed parse tArg with
    | none => simp [programRun, mainConfig, hsp]
    | some sp' => simp [programRun, mainConfig, hsp, ht]
  · intro hcomp ha hb hcgoal hsp
    have hlen : (componentsOf value).length = 3 := by rw [hcomp]; rfl
    have hc : countSpaces value = 2 := by
      have := componentsOf_length value
      omega
    have ht : computeTurntable parse (some value) = some (x, y, z) := by
      simp [computeTurntable, hc, hcomp, ha, hb, hcgoal]
    refine ⟨ht, ?_⟩
    simp [programRun, mainConfig, hsp, ht]

theorem C3_witness :
    componentsOf "10 20 30" = ["10", "20", "30"]
    ∧ parseNum "10" = some 10
    ∧ parseNum "20" = some 20
    ∧ parseNum "30" = some 30
    ∧ computeSpeed parseNum none = some 1
    ∧ (computeTurntable parseNum (some "10 20 30") = some (10, 20, 30)
       ∧ (programRun sampleLoadEnv "good.obj" parseNum none
           (some "10 20 30") (fun _ => true) (fun _ => true)
           (fun _ => none) (fun _ => 1) 2).2 ≠ none) :=
  ⟨by decide, by decide, by decide, by decide, by decide,
   (C3_rotation_arg_amended parseNum "10 20 30" sampleLoadEnv "good.obj"
     none (fun _ => true) (fun _ => true) (fun _ => none) (fun _ => 1) 2
     "10" "20" "30" 10 20 30 1).2 (by decide) (by decide) (by decide)
     (by decide) (by decide)⟩

/-- C1: the program performs no degrees-to-radians conversion.  With the
rotation argument "90 0 0" the parsed values (90, 0, 0) are stored in the
turntable verbatim, and the value handed to
`Rotation3::from_euler_angles` in the first frame is exactly (90, 0, 0) —
not (90·π/180, 0, 0) as the specification states — even though the
program's own panic message documents the input as degrees and
`from_euler_angles` takes radians. -/
theorem C1_angles_passed_unconverted :
    computeTurntable parseNum (some "90 0 0") = some (90, 0, 0)
    ∧ (iter sampleLoopEnv 0 ((90 : ℚ), 0, 0)).1.filter isComputeRot
        = [Ev.computeRot (Homog.mk 90 0 0)]
    ∧ rotationTransform ((90 : ℚ), 0, 0) = Homog.mk 90 0 0 := by
  decide

/-! ## Helper lemmas about the render loop -/

theorem draws_filter_computeRot {M : Type} (l : List M) (r : Homog) :
    (l.map (fun m => Ev.drawMeshEv m r)).filter isComputeRot = [] := by
  induction l with
  | nil => rfl
  | cons a l ih => simp [List.filter_cons, isComputeRot, ih]

theorem draws_filter_draw {M : Type} (l : List M) (r : Homog) :
    (l.map (fun m => Ev.drawMeshEv m r)).filter isDrawEv
      = l.map (fun m => Ev.drawMeshEv m r) := by
  induction l with
  | nil => rfl
  | cons a l ih => simp [List.filter_cons, isDrawEv, ih]

theorem iter_computeRot_filter {M : Type} (env : LoopEnv M) (n : Nat)
    (t : ℚ × ℚ × ℚ) (hq : quitEvent (env.input n) = false) :
    (iter env n t).1.filter isComputeRot
      = [Ev.computeRot (rotationTransform t)] := by
  cases hu : env.updateOk n with
  | false =>
    simp [iter, hq, hu, List.filter_cons, isComputeRot]
  | true =>
    cases hf : env.flushOk n with
    | false =>
      simp [iter, hq, hu, hf, List.filter_append, List.filter_cons,
        isComputeRot, draws_filter_computeRot]
    | true =>
      simp [iter, hq, hu, hf, List.filter_append, List.filter_cons,
        isComputeRot, draws_filter_computeRot]

theorem iter_continued_eq {M : Type} (env : LoopEnv M) (n : Nat)
    (t t' : ℚ × ℚ × ℚ)
    (h : (iter env n t).2 = IterResult.continued t') :
    t' = advance env n t := by
  cases hq : quitEvent (env.input n) with
  | true => simp [iter, hq] at h
  | false =>
    cases hu : env.updateOk n with
    | false => simp [iter, hq, hu] at h
    | true =>
      cases hf : env.flushOk n with
      | false => simp [iter, hq, hu, hf] at h
      | true =>
        simp [iter, hq, hu, hf] at h
        exact h.symm

theorem iter_broke_iff {M : Type} (env : LoopEnv M) (n : Nat)
    (t : ℚ × ℚ × ℚ) :
    (iter env n t).2 = IterResult.broke
      ↔ quitEvent (env.input n) = true := by
  cases hq : quitEvent (env.input n) with
  | true => simp [iter, hq]
  | false =>
    cases hu : env.updateOk n with
    | false => simp [iter, hq, hu]
    | true => cases hf : env.flushOk n with
      | false => simp [iter, hq, hu, hf]
      | true => simp [iter, hq, hu, hf]

theorem iter_no_show {M : Type} (env : LoopEnv M) (n : Nat)
    (t : ℚ × ℚ × ℚ) : Ev.showCursor ∉ (iter env n t).1 := by
  cases hq : quitEvent (env.input n) with
  | true => simp [iter, hq]
  | false =>
    cases hu : env.updateOk n with
    | false => simp [iter, hq, hu]
    | true => cases hf : env.flushOk n with
      | false => simp [iter, hq, hu, hf]
      | true => simp [iter, hq, hu, hf]

theorem runLoop_no_show {M : Type} (env : LoopEnv M) (fuel n : Nat)
    (t : ℚ × ℚ × ℚ) : Ev.showCursor ∉ (runLoop env fuel n t).1 := by
  induction fuel generalizing n t with
  | zero => simp [runLoop]
  | succ fuel ih =>
    have hno := iter_no_show env n t
    rcases hi : iter env n t with ⟨evs, r⟩
    rw [hi] at hno
    cases r with
    | broke => simpa [runLoop, hi] using hno
    | updateErr => simpa [runLoop, hi] using hno
    | flushErr => simpa [runLoop, hi] using hno
    | continued t' =>
      simp only [runLoop, hi, List.mem_append]
      push_neg
      exact ⟨hno, ih (n + 1) t'⟩

theorem getLast?_append_singleton {α : Type} (l : List α) (a : α) :
    (l ++ [a]).getLast? = some a := by
  rw [List.getLast?_append_cons]
  rfl

/-! ## Claims about the render loop -/

/-- C5: in any iteration that is not broken off at the input poll, the
rotation transform is computed exactly once, from the current turntable
angles, and every `draw_mesh` call of the iteration — one per queued mesh,
in queue order — receives that identical transform; no mesh receives an
individual transform. -/
theorem C5_one_transform_per_frame {M : Type} (env : LoopEnv M) (n : Nat)
    (t : ℚ × ℚ × ℚ) (hq : quitEvent (env.input n) = false) :
    (iter env n t).1.filter isComputeRot
      = [Ev.computeRot (rotationTransform t)]
    ∧ (env.updateOk n = true →
        (iter env n t).1.filter isDrawEv
          = env.meshQueue.map
              (fun m => Ev.drawMeshEv m (rotationTransform t)))
    ∧ (∀ (m : M) (r : Homog),
        Ev.drawMeshEv m r ∈ (iter env n t).1 → r = rotationTransform t) := by
  refine ⟨iter_computeRot_filter env n t hq, ?_, ?_⟩
  · intro hu
    cases hf : env.flushOk n with
    | false =>
      simp [iter, hq, hu, hf, List.filter_append, List.filter_cons,
        isDrawEv, draws_filter_draw]
    | true =>
      simp [iter, hq, hu, hf, List.filter_append, List.filter_cons,
        isDrawEv, draws_filter_draw]
  · intro m r hmem
    cases hu : env.updateOk n with
    | false => simp [iter, hq, hu] at hmem
    | true =>
      cases hf : env.flushOk n with
      | false =>
        simp [iter, hq, hu, hf] at hmem
        rcases hmem with ⟨a, ha, h1, h2⟩
        exact h2.symm
      | true =>
        simp [iter, hq, hu, hf] at hmem
        rcases hmem with ⟨a, ha, h1, h2⟩
        exact h2.symm

theorem C5_witness :
    quitEvent (sampleLoopEnv.input 0) = false
    ∧ (iter sampleLoopEnv 0 ((0 : ℚ), 0, 0)).1.filter isComputeRot
        = [Ev.computeRot (rotationTransform ((0 : ℚ), 0, 0))]
    ∧ (iter sampleLoopEnv 0 ((0 : ℚ), 0, 0)).1.filter isDrawEv
        = sampleLoopEnv.meshQueue.map
            (fun m => Ev.drawMeshEv m (rotationTransform ((0 : ℚ), 0, 0))) :=
  ⟨by decide,
   (C5_one_transform_per_frame sampleLoopEnv 0 ((0 : ℚ), 0, 0)
     (by decide)).1,
   (C5_one_transform_per_frame sampleLoopEnv 0 ((0 : ℚ), 0, 0)
     (by decide)).2.1 (by decide)⟩

/-- C6: in every completed iteration of the render loop the operations
occur in the fixed order: input poll, transform computation, buffer
resize check (`context.update`), `clear`, one `draw_mesh` per queued mesh
in queue order, `context.flush`, stdout flush — so `clear` precedes every
draw of the frame and the flush follows all draws. -/
theorem C6_frame_operation_order {M : Type} (env : LoopEnv M) (n : Nat)
    (t : ℚ × ℚ × ℚ) (hq : quitEvent (env.input n) = false)
    (hu : env.updateOk n = true) (hf : env.flushOk n = true) :
    (iter env n t).1
      = [Ev.pollInput (env.input n), Ev.computeRot (rotationTransform t),
         Ev.updateCtx, Ev.clearCtx]
        ++ env.meshQueue.map (fun m => Ev.drawMeshEv m (rotationTransform t))
        ++ [Ev.flushCtx, Ev.flushStdout] := by
  simp [iter, hq, hu, hf]

theorem C6_witness :
    quitEvent (sampleLoopEnv.input 0) = false
    ∧ sampleLoopEnv.updateOk 0 = true
    ∧ sampleLoopEnv.flushOk 0 = true
    ∧ (iter sampleLoopEnv 0 ((0 : ℚ), 0, 0)).1
        = [Ev.pollInput (sampleLoopEnv.input 0),
           Ev.computeRot (rotationTransform ((0 : ℚ), 0, 0)),
           Ev.updateCtx, Ev.clearCtx]
          ++ sampleLoopEnv.meshQueue.map
              (fun m => Ev.drawMeshEv m (rotationTransform ((0 : ℚ), 0, 0)))
          ++ [Ev.flushCtx, Ev.flushStdout] :=
  ⟨by decide, rfl, rfl,
   C6_frame_operation_order sampleLoopEnv 0 ((0 : ℚ), 0, 0) (by decide)
     rfl rfl⟩

/-- C7: when an iteration completes, the turntable state handed to the
next iteration is the accumulated angles with the second Euler angle
advanced by `speed * dt` (`dt` being the time measured over that
iteration), and the next frame's transform is computed exactly from the
so-advanced accumulated angles: the advance for the elapsed interval is
already reflected in the transform of the frame being drawn. -/
theorem C7_turntable_advance {M : Type} (env : LoopEnv M) (n : Nat)
    (t t' : ℚ × ℚ × ℚ)
    (h : (iter env n t).2 = IterResult.continued t') :
    t' = (t.1, t.2.1 + env.speed * env.dt n, t.2.2)
    ∧ (quitEvent (env.input (n + 1)) = false →
        (iter env (n + 1) t').1.filter isComputeRot
          = [Ev.computeRot (rotationTransform
              (t.1, t.2.1 + env.speed * env.dt n, t.2.2))]) := by
  have ha := iter_continued_eq env n t t' h
  constructor
  · simpa [advance] using ha
  · intro hq
    have hfil := iter_computeRot_filter env (n + 1) t' hq
    rw [hfil, ha]
    simp [advance]

theorem C7_witness :
    (iter sampleLoopEnv 0 ((0 : ℚ), 0, 0)).2
      = IterResult.continued ((0 : ℚ), 1, 0)
    ∧ ((0 : ℚ), (1 : ℚ), (0 : ℚ))
        = ((0 : ℚ), (0 : ℚ) + sampleLoopEnv.speed * sampleLoopEnv.dt 0, (0 : ℚ))
    ∧ (iter sampleLoopEnv 1 ((0 : ℚ), 1, 0)).1.filter isComputeRot
        = [Ev.computeRot (rotationTransform
            ((0 : ℚ), (0 : ℚ) + sampleLoopEnv.speed * sampleLoopEnv.dt 0,
             (0 : ℚ)))] := by
  have h : (iter sampleLoopEnv 0 ((0 : ℚ), 0, 0)).2
      = IterResult.continued ((0 : ℚ), 1, 0) := by
    norm_num [iter, sampleLoopEnv, quitEvent, advance]
  exact ⟨h,
    (C7_turntable_advance sampleLoopEnv 0 ((0 : ℚ), 0, 0) ((0 : ℚ), 1, 0)
      h).1,
    (C7_turntable_advance sampleLoopEnv 0 ((0 : ℚ), 0, 0) ((0 : ℚ), 1, 0)
      h).2 (by decide)⟩

/-- C8: an iteration breaks the loop exactly when the event observed by
the poll at its head is the keyboard event for the character 'q'; a
breaking iteration performs nothing but that poll (termination happens at
the top of the iteration, so a quit signal arriving later is only acted
on at the next loop head); no other event is a quit event; and the loop
as a whole exits with the quit outcome only if some iteration polled the
quit key. -/
theorem C8_quit_only_at_loop_head {M : Type} (env : LoopEnv M)
    (fuel n : Nat) (t : ℚ × ℚ × ℚ) :
    ((iter env n t).2 = IterResult.broke
       ↔ quitEvent (env.input n) = true)
    ∧ ((iter env n t).2 = IterResult.broke →
        (iter env n t).1 = [Ev.pollInput (env.input n)])
    ∧ (∀ e : Option InputEvent,
        quitEvent e = true
          ↔ e = some (InputEvent.keyboard (KeyEvent.char 'q')))
    ∧ ((runLoop env fuel n t).2 = some ExitKind.quit →
        ∃ k, quitEvent (env.input k) = true) := by
  refine ⟨iter_broke_iff env n t, ?_, ?_, ?_⟩
  · intro h
    have hq := (iter_broke_iff env n t).1 h
    simp [iter, hq]
  · intro e
    cases e with
    | none => simp [quitEvent]
    | some ie =>
      cases ie with
      | keyboard ke =>
        cases ke with
        | char c => simp [quitEvent]
        | otherKey => simp [quitEvent]
      | otherEvent => simp [quitEvent]
  · induction fuel generalizing n t with
    | zero => simp [runLoop]
    | succ fuel ih =>
      intro h
      rcases hi : iter env n t with ⟨evs, r⟩
      cases r with
      | broke => exact ⟨n, (iter_broke_iff env n t).1 (by rw [hi])⟩
      | updateErr => simp [runLoop, hi] at h
      | flushErr => simp [runLoop, hi] at h
      | continued t' =>
        simp only [runLoop, hi] at h
        exact ih (n + 1) t' h

theorem C8_witness :
    (iter quitAt1Env 1 ((0 : ℚ), 1, 0)).2 = IterResult.broke
    ∧ (iter quitAt1Env 1 ((0 : ℚ), 1, 0)).1
        = [Ev.pollInput (quitAt1Env.input 1)] :=
  ⟨by decide,
   (C8_quit_only_at_loop_head quitAt1Env 2 1 ((0 : ℚ), 1, 0)).2.1
     (by decide)⟩

/-- C4, counterexample to the claim as stated: when `context.update`
fails in the first iteration, the `?` at `main.rs` line 102 returns from
`main` without ever reaching the `cursor.show()` at line 114 — an exit
path on which the cursor was hidden and never restored. -/
theorem C4_counterexample_error_exit_cursor_hidden :
    (runMain updateFailEnv 1 ((0 : ℚ), 0, 0)).2 = some ExitKind.updateErr
    ∧ Ev.hideCursor ∈ (runMain updateFailEnv 1 ((0 : ℚ), 0, 0)).1
    ∧ Ev.showCursor ∉ (runMain updateFailEnv 1 ((0 : ℚ), 0, 0)).1 := by
  decide

/-- C4, amended: the cursor-show restoration runs (after the hide on
entry) on the normal quit-key exit path only; the error returns out of
the render loop (buffer update failure, flush failure) propagate via `?`
and skip the restoration, leaving the cursor hidden. -/
theorem C4_cursor_restore_amended {M : Type} (env : LoopEnv M)
    (fuel : Nat) (t0 : ℚ × ℚ × ℚ) :
    ((runMain env fuel t0).2 = some ExitKind.quit →
       (runMain env fuel t0).1.head? = some (Ev.hideCursor : Ev M)
       ∧ (runMain env fuel t0).1.getLast? = some (Ev.showCursor : Ev M))
    ∧ ((runMain env fuel t0).2 = some ExitKind.updateErr
        ∨ (runMain env fuel t0).2 = some ExitKind.flushErr →
       Ev.hideCursor ∈ (runMain env fuel t0).1
       ∧ Ev.showCursor ∉ (runMain env fuel t0).1) := by
  have h2 : (runMain env fuel t0).2 = (runLoop env fuel 0 t0).2 := rfl
  constructor
  · intro hq
    rw [h2] at hq
    constructor
    · simp [runMain]
    · have htr : (runMain env fuel t0).1
          = (Ev.hideCursor :: (runLoop env fuel 0 t0).1)
            ++ [Ev.showCursor] := by
        simp [runMain, hq]
      rw [htr, getLast?_append_singleton]
  · intro herr
    have hne : ¬((runLoop env fuel 0 t0).2 = some ExitKind.quit) := by
      rcases herr with h | h <;> rw [h2] at h <;> simp [h]
    constructor
    · simp [runMain]
    · have htr : (runMain env fuel t0).1
          = Ev.hideCursor :: (runLoop env fuel 0 t0).1 := by
        simp [runMain, hne]
      rw [htr]
      simp [runLoop_no_show env fuel 0 t0]

theorem C4_witness :
    (runMain quitAt1Env 3 ((0 : ℚ), 0, 0)).2 = some ExitKind.quit
    ∧ ((runMain quitAt1Env 3 ((0 : ℚ), 0, 0)).1.head?
         = some (Ev.hideCursor : Ev Nat)
       ∧ (runMain quitAt1Env 3 ((0 : ℚ), 0, 0)).1.getLast?
         = some (Ev.showCursor : Ev Nat)) :=
  ⟨by decide,
   (C4_cursor_restore_amended quitAt1Env 3 ((0 : ℚ), 0, 0)).1
     (by decide)⟩

end Slothgl
